import Mathlib

/-!
Verification of the Jama trace-item filter engine
(`src/utils/jama_report.py`): the predicate data model, its construction
validation (`Condition.__init__`, `ConditionGroup.__init__`,
`JamaFilter.__init__`) and its evaluation semantics (`Condition.__call__`,
`Condition._evaluate_relationships`, `Condition._strcomp`,
`Condition._numcomp`, `Condition._relcomp`, `ConditionGroup.__call__`,
`JamaFilter.__call__`).

Python exceptions are modelled as an error type returned through `Except`;
Python's recursive evaluation of named conditions is modelled with an
explicit fuel parameter (running out of fuel corresponds to Python's
RecursionError and is reported as a distinct error value).  Timestamps are
modelled as integers (the code only compares them with a total order).
Compiled regular expressions (the `matches` string comparison) are modelled
as their match predicate `String → Bool`.
-/

/-- Errors a filter run can raise.  `invalidCondition` is the
`InvalidCondition` exception class of the source; `typeError` and
`keyError` model Python's built-in `TypeError` / `KeyError`;
`recursionLimit` models Python's `RecursionError` (the fuel artifact). -/
inductive Err where
  | invalidCondition
  | typeError
  | keyError
  | recursionLimit
deriving DecidableEq, Repr

/-- One entry of an item's `upstream` / `downstream` list.  Of the five
keys in the data schema only `type` (the relationship type) and
`project_id` (the related id used for index lookup) are read by the
filter engine. -/
structure Relationship where
  type : String
  project_id : String
deriving DecidableEq, Repr

/-- A Jama item as consumed by the filter engine: exactly the keys of the
validated data dictionaries that `Condition.__call__`,
`ConditionGroup.__call__` and `JamaFilter.__call__` read. -/
structure Item where
  project_id : String
  object_type : String
  title : String
  location : List String
  fields : List (String × String)
  tags : List String
  object_created : Int
  object_modified : Int
  upstream : List Relationship
  downstream : List Relationship
deriving DecidableEq, Repr

/-- Whether `needle` is an initial segment of `hay` (character lists). -/
def startsWithSeg : List Char → List Char → Bool
  | [], _ => true
  | _ :: _, [] => false
  | c :: cs, d :: ds => c == d && startsWithSeg cs ds

/-- Whether `needle` occurs contiguously inside `hay`; models Python's
`needle in hay` on strings. -/
def hasInfixSeg (needle : List Char) : List Char → Bool
  | [] => startsWithSeg needle []
  | d :: ds => startsWithSeg needle (d :: ds) || hasInfixSeg needle ds

/-- Python's substring test `comp_value in value`. -/
def strContainsSub (value comp_value : String) : Bool :=
  hasInfixSeg comp_value.data value.data

/-- A string comparison: the `(logic, comparison value)` pair a condition
stores after `dict_get_first` over a validated string-comparison
dictionary (keys `contains`, `does not contain`, `is`, `is not`, `in`,
`not in`, `matches`, in that order).  A compiled regex is modelled by its
anchored-left match predicate. -/
inductive StrComp where
  | contains (s : String)
  | doesNotContain (s : String)
  | is (s : String)
  | isNot (s : String)
  | inList (l : List String)
  | notInList (l : List String)
  | reMatch (p : String → Bool)

/-- Translation of the static method `Condition._strcomp`. -/
def strcomp (value : String) : StrComp → Bool
  | .contains s => strContainsSub value s
  | .doesNotContain s => !(strContainsSub value s)
  | .is s => value == s
  | .isNot s => value != s
  | .inList l => l.contains value
  | .notInList l => !(l.contains value)
  | .reMatch p => p value

/-- A number comparison: one `(logic, comparison value)` pair of a
condition's `count` list. -/
inductive NumComp where
  | is (n : Int)
  | isNot (n : Int)
  | inList (l : List Int)
  | notInList (l : List Int)
  | greaterThan (n : Int)
  | greaterThanEq (n : Int)
  | lessThan (n : Int)
  | lessThanEq (n : Int)
deriving DecidableEq, Repr

/-- Translation of the static method `Condition._numcomp`. -/
def numcomp (value : Int) : NumComp → Bool
  | .is n => value == n
  | .isNot n => value != n
  | .inList l => l.contains value
  | .notInList l => !(l.contains value)
  | .greaterThan n => decide (value > n)
  | .greaterThanEq n => decide (value ≥ n)
  | .lessThan n => decide (value < n)
  | .lessThanEq n => decide (value ≤ n)

/-- The relationship match logic kinds (`all match`, `count match`,
`none match`). -/
inductive RelLogic where
  | allMatch
  | countMatch
  | noneMatch
deriving DecidableEq, Repr

/-- The location logic kinds (`is under`, `is not under`, `every node`,
`no node`). -/
inductive LocTag where
  | isUnder
  | isNotUnder
  | everyNode
  | noNode
deriving DecidableEq, Repr

/-- The group combinators (`according to all`, `according to any`). -/
inductive GroupTag where
  | all
  | any
deriving DecidableEq, Repr

/-- The validated string-comparison dictionary (`STRCOMP_SCHEMA`): at most
one of the seven mutually exclusive keys is present. -/
structure StrCompSpec where
  contains : Option String := none
  does_not_contain : Option String := none
  is : Option String := none
  is_not : Option String := none
  in_list : Option (List String) := none
  not_in : Option (List String) := none
  re_match : Option (String → Bool) := none

/-- Specialisation of `dict_get_first` over a string-comparison dictionary
with the key order used throughout `Condition.__init__`: `contains`,
`does not contain`, `is`, `is not`, `in`, `not in`, `matches`.  Returns
the first present key together with its value, or `none`. -/
def strGetFirst (s : StrCompSpec) : Option StrComp :=
  match s.contains with
  | some v => some (.contains v)
  | none =>
  match s.does_not_contain with
  | some v => some (.doesNotContain v)
  | none =>
  match s.is with
  | some v => some (.is v)
  | none =>
  match s.is_not with
  | some v => some (.isNot v)
  | none =>
  match s.in_list with
  | some v => some (.inList v)
  | none =>
  match s.not_in with
  | some v => some (.notInList v)
  | none =>
  match s.re_match with
  | some v => some (.reMatch v)
  | none => none

/-- The validated number-comparison dictionary (`NUMCOMP_SCHEMA`). -/
structure NumCompSpec where
  is : Option Int := none
  is_not : Option Int := none
  in_list : Option (List Int) := none
  not_in : Option (List Int) := none
  greater_than : Option Int := none
  greater_than_or_equal : Option Int := none
  less_than : Option Int := none
  less_than_or_equal : Option Int := none
deriving Repr

/-- Specialisation of `dict_get_first` over the equality family of a
number-comparison dictionary (keys `is`, `is not`, `in`, `not in`, in
that order). -/
def numEqGetFirst (c : NumCompSpec) : Option NumComp :=
  match c.is with
  | some v => some (.is v)
  | none =>
  match c.is_not with
  | some v => some (.isNot v)
  | none =>
  match c.in_list with
  | some v => some (.inList v)
  | none =>
  match c.not_in with
  | some v => some (.notInList v)
  | none => none

/-- The ordering-family pairs collected by the `for logic in [...]` loop
of `Condition.__init__`, in its order: `greater than`,
`greater than or equal to`, `less than`, `less than or equal to`. -/
def numOrdPairs (c : NumCompSpec) : List NumComp :=
  (match c.greater_than with | some v => [NumComp.greaterThan v] | none => []) ++
  (match c.greater_than_or_equal with | some v => [NumComp.greaterThanEq v] | none => []) ++
  (match c.less_than with | some v => [NumComp.lessThan v] | none => []) ++
  (match c.less_than_or_equal with | some v => [NumComp.lessThanEq v] | none => [])

/-- The validated `location` sub-dictionary of a condition. -/
structure LocationSpec where
  is_under : Option (List String) := none
  is_not_under : Option (List String) := none
  every_node : Option StrCompSpec := none
  no_node : Option StrCompSpec := none

/-- Value of the first present key of a location dictionary. -/
inductive LocVal where
  | isUnder (p : List String)
  | isNotUnder (p : List String)
  | everyNode (s : StrCompSpec)
  | noNode (s : StrCompSpec)

/-- Specialisation of `dict_get_first` over a location dictionary (key
order `is under`, `is not under`, `every node`, `no node`). -/
def locGetFirst (l : LocationSpec) : Option LocVal :=
  match l.is_under with
  | some p => some (.isUnder p)
  | none =>
  match l.is_not_under with
  | some p => some (.isNotUnder p)
  | none =>
  match l.every_node with
  | some s => some (.everyNode s)
  | none =>
  match l.no_node with
  | some s => some (.noNode s)
  | none => none

/-- The validated `field` sub-dictionary of a condition.  `name` is a
required schema key; `required` carries the schema default `True`. -/
structure FieldSpec where
  name : String
  value : Option StrCompSpec := none
  required : Bool := true

/-- The validated `created` / `modified` sub-dictionary of a condition. -/
structure DateSpec where
  before : Option Int := none
  after : Option Int := none
deriving Repr

/-- The validated `tags` sub-dictionary of a condition; models the
`include` / `exclude` keys. -/
structure TagsSpec where
  tags_include : Option String := none
  tags_exclude : Option String := none
deriving Repr

/-- The validated `upstream items` / `downstream items` sub-dictionary of
a condition (`RELATIONSHIPS_SCHEMA`).  `count_unknowns` carries the schema
default `False`. -/
structure RelsSpec where
  with_type : Option (List String) := none
  count : Option NumCompSpec := none
  all_match : Option String := none
  count_match : Option String := none
  none_match : Option String := none
  count_unknowns : Bool := false
deriving Repr

/-- Specialisation of `dict_get_first` over a relationship dictionary's
match-logic keys (`all match`, `count match`, `none match`, in that
order); the value is the name of the nested condition. -/
def relGetFirst (u : RelsSpec) : Option (RelLogic × String) :=
  match u.all_match with
  | some s => some (.allMatch, s)
  | none =>
  match u.count_match with
  | some s => some (.countMatch, s)
  | none =>
  match u.none_match with
  | some s => some (.noneMatch, s)
  | none => none

/-- The validated condition dictionary (`CONDITION_SCHEMA`): at most one
of the seven mutually exclusive attribute keys is present after schema
validation, but `Condition.__init__` itself accepts any combination. -/
structure CondSpec where
  location : Option LocationSpec := none
  field : Option FieldSpec := none
  created : Option DateSpec := none
  modified : Option DateSpec := none
  tags : Option TagsSpec := none
  upstream_items : Option RelsSpec := none
  downstream_items : Option RelsSpec := none

/-- A constructed `Condition` object: the attributes `Condition.__init__`
assigns on `self`, all initialised to `None`.  The pairs
`(location_node_logic, location_node_value)`, `(field_logic, field_value)`
and each `(logic, value)` entry of a count list are packaged as `StrComp`
/ `NumComp` values, since `dict_get_first` always yields both components
of a pair together. -/
structure Condition where
  location_logic : Option LocTag := none
  location_path : Option (List String) := none
  location_node : Option StrComp := none
  field_name : Option String := none
  field_comp : Option StrComp := none
  field_required : Option Bool := none
  created_before : Option Int := none
  created_after : Option Int := none
  modified_before : Option Int := none
  modified_after : Option Int := none
  tags_include : Option String := none
  tags_exclude : Option String := none
  upstream_type : Option (List String) := none
  upstream_count : Option (List NumComp) := none
  upstream_logic : Option RelLogic := none
  upstream_condition : Option String := none
  upstream_count_unknowns : Option Bool := none
  downstream_type : Option (List String) := none
  downstream_count : Option (List NumComp) := none
  downstream_logic : Option RelLogic := none
  downstream_condition : Option String := none
  downstream_count_unknowns : Option Bool := none

/-- The `# location` block of `Condition.__init__`.  When none of the four
location keys is present, `dict_get_first` is applied to `None` and Python
raises `TypeError` (`'in' on NoneType`); the `InvalidCondition` raise
below that call is unreachable. -/
def initLocation :
    Option LocationSpec → Except Err (Option LocTag × Option (List String) × Option StrComp)
  | none => .ok (none, none, none)
  | some lc =>
    match locGetFirst lc with
    | some (.isUnder p) => .ok (some .isUnder, some p, none)
    | some (.isNotUnder p) => .ok (some .isNotUnder, some p, none)
    | some (.everyNode s) =>
      match strGetFirst s with
      | none => .error .invalidCondition
      | some sc => .ok (some .everyNode, none, some sc)
    | some (.noNode s) =>
      match strGetFirst s with
      | none => .error .invalidCondition
      | some sc => .ok (some .noNode, none, some sc)
    | none => .error .typeError

/-- The `# field` block of `Condition.__init__`.  `name` is a required
schema key, so the `field_name is None` raise is unreachable; the
remaining check rejects `required = False` without a value comparison. -/
def initField :
    Option FieldSpec → Except Err (Option String × Option StrComp × Option Bool)
  | none => .ok (none, none, none)
  | some fc =>
    let comp := match fc.value with
      | none => none
      | some v => strGetFirst v
    if !fc.required && comp.isNone then .error .invalidCondition
    else .ok (some fc.name, comp, some fc.required)

/-- The `# created` / `# modified` blocks of `Condition.__init__`: a date
dictionary must carry at least one bound. -/
def initDate : Option DateSpec → Except Err (Option Int × Option Int)
  | none => .ok (none, none)
  | some dc =>
    if dc.before.isNone && dc.after.isNone then .error .invalidCondition
    else .ok (dc.before, dc.after)

/-- The `# tags` block of `Condition.__init__`. -/
def initTags : Option TagsSpec → Except Err (Option String × Option String)
  | none => .ok (none, none)
  | some tc =>
    if tc.tags_include.isNone && tc.tags_exclude.isNone then .error .invalidCondition
    else .ok (tc.tags_include, tc.tags_exclude)

/-- The `# upstream items` / `# downstream items` blocks of
`Condition.__init__`; returns `(type, count, logic, condition name,
count unknowns)`. -/
def initRels :
    Option RelsSpec →
    Except Err (Option (List String) × Option (List NumComp) × Option RelLogic ×
      Option String × Option Bool)
  | none => .ok (none, none, none, none, none)
  | some uc => do
    let count ← (match uc.count with
      | none => Except.ok none
      | some cs =>
        match numEqGetFirst cs with
        | some nc => Except.ok (some [nc])
        | none =>
          let l := numOrdPairs cs
          if l.length = 0 then Except.error Err.invalidCondition
          else Except.ok (some l))
    let lc := relGetFirst uc
    let logic := lc.map (·.1)
    let cond := lc.map (·.2)
    if count.isNone && cond.isNone then
      .error .invalidCondition
    else if count.isNone then
      if logic == some .countMatch then .error .invalidCondition
      else .ok (uc.with_type, count, logic, cond, some uc.count_unknowns)
    else if !(logic == none || logic == some RelLogic.countMatch) then
      .error .invalidCondition
    else
      .ok (uc.with_type, count, logic, cond, some uc.count_unknowns)

/-- Translation of `Condition.__init__`: processes the attribute blocks
in source order, raising on the first invalid block. -/
def Condition.init (spec : CondSpec) : Except Err Condition := do
  let (location_logic, location_path, location_node) ← initLocation spec.location
  let (field_name, field_comp, field_required) ← initField spec.field
  let (created_before, created_after) ← initDate spec.created
  let (modified_before, modified_after) ← initDate spec.modified
  let (tags_include, tags_exclude) ← initTags spec.tags
  let (upstream_type, upstream_count, upstream_logic, upstream_condition,
    upstream_count_unknowns) ← initRels spec.upstream_items
  let (downstream_type, downstream_count, downstream_logic, downstream_condition,
    downstream_count_unknowns) ← initRels spec.downstream_items
  pure {
    location_logic, location_path, location_node,
    field_name, field_comp, field_required,
    created_before, created_after, modified_before, modified_after,
    tags_include, tags_exclude,
    upstream_type, upstream_count, upstream_logic, upstream_condition,
    upstream_count_unknowns,
    downstream_type, downstream_count, downstream_logic, downstream_condition,
    downstream_count_unknowns }

mutual
/-- A member of a condition group's member list: an inline `Condition`, a
nested inline `ConditionGroup`, or the name of a registered condition. -/
inductive GroupMember where
  | cond (c : Condition)
  | group (g : ConditionGroup)
  | name (s : String)
/-- A constructed `ConditionGroup` object with its three attributes
`type`, `group_logic` and `conditions` (the latter two are `None`
together when neither `according to all` nor `according to any` is
present). -/
inductive ConditionGroup where
  | mk (type : Option (List String)) (group_logic : Option GroupTag)
      (conditions : Option (List GroupMember))
end

/-- The `type` attribute of a constructed group. -/
def ConditionGroup.type : ConditionGroup → Option (List String)
  | .mk t _ _ => t

/-- The `group_logic` attribute of a constructed group. -/
def ConditionGroup.group_logic : ConditionGroup → Option GroupTag
  | .mk _ gl _ => gl

/-- The `conditions` attribute of a constructed group. -/
def ConditionGroup.conditions : ConditionGroup → Option (List GroupMember)
  | .mk _ _ cs => cs

/-- A value of the named-condition registry: each registered name maps to
a coerced `Condition` or `ConditionGroup`. -/
inductive CondOrGroup where
  | cond (c : Condition)
  | group (g : ConditionGroup)

/-- The named-condition registry (`named_conditions`): a mapping from
names to conditions, modelled as a lookup function. -/
def Names : Type := String → Option CondOrGroup

/-- The validated condition-group dictionary (`CONDITION_GROUP_SCHEMA`);
members have already been coerced recursively by the schema. -/
structure GroupSpec where
  type : Option (List String) := none
  according_to_all : Option (List GroupMember) := none
  according_to_any : Option (List GroupMember) := none

/-- Specialisation of `dict_get_first` over a group dictionary's
combinator keys (`according to all`, `according to any`, in that
order). -/
def groupGetFirst (g : GroupSpec) : Option (GroupTag × List GroupMember) :=
  match g.according_to_all with
  | some l => some (.all, l)
  | none =>
  match g.according_to_any with
  | some l => some (.any, l)
  | none => none

/-- Translation of `ConditionGroup.__init__`.  The guard
`self.type is None and len(self.conditions) == 0` short-circuits: with a
type present nothing is checked; without a type, `len(None)` raises
`TypeError` when no combinator key is present, and an empty member list
raises `InvalidCondition`. -/
def ConditionGroup.init (spec : GroupSpec) : Except Err ConditionGroup :=
  let lc := groupGetFirst spec
  let gl := lc.map (·.1)
  let conds := lc.map (·.2)
  match spec.type with
  | some _ => .ok (.mk spec.type gl conds)
  | none =>
    match conds with
    | none => .error .typeError
    | some l =>
      if l.length = 0 then .error .invalidCondition
      else .ok (.mk spec.type gl conds)

/-- The member-resolution loop of `ConditionGroup.__call__`: string
members are looked up in the registry (a missing name raises
`InvalidCondition`), inline members pass through; resolution of the whole
list happens before any member is evaluated. -/
def resolveMembers (named : Names) : List GroupMember → Except Err (List CondOrGroup)
  | [] => .ok []
  | m :: ms => do
    let c ← (match m with
      | .cond c => Except.ok (CondOrGroup.cond c)
      | .group g => Except.ok (CondOrGroup.group g)
      | .name s =>
        match named s with
        | none => Except.error Err.invalidCondition
        | some c => Except.ok c)
    let rest ← resolveMembers named ms
    pure (c :: rest)

/-- The `# collect known items` loop of
`Condition._evaluate_relationships`: filter by relationship type when a
type list is configured, then split the remaining relationships into
resolved items (in order) and a count of unresolved ids. -/
def collectKnown (item_map : String → Option Item) (types : Option (List String))
    (relationships : List Relationship) : List Item × Nat :=
  relationships.foldl
    (fun acc r =>
      if (match types with
          | some ts => !(ts.contains r.type)
          | none => false) then acc
      else
        match item_map r.project_id with
        | none => (acc.1, acc.2 + 1)
        | some it => (acc.1 ++ [it], acc.2))
    ([], 0)

/-- The `all(self._numcomp(...) for logic, value in count)` pattern of
`Condition._evaluate_relationships`: iterating a `None` count raises
`TypeError`, otherwise every configured comparator must hold. -/
def countAllE (count : Option (List NumComp)) (n : Int) : Except Err Bool :=
  match count with
  | none => .error .typeError
  | some cs => .ok (cs.all (fun nc => numcomp n nc))

/-- Python's `not x` on an optional boolean attribute (`None` is falsy). -/
def pyNot : Option Bool → Bool
  | some b => !b
  | none => true

/-- Python's `sum(1 for u in items if ev(u))` over a fallible per-item
evaluation: evaluates every item (no short-circuit), aborting on the
first raised error. -/
def countMatchesE (ev : Item → Except Err Bool) : List Item → Except Err Nat
  | [] => .ok 0
  | u :: us => do
    let b ← ev u
    let m ← countMatchesE ev us
    pure (if b then m + 1 else m)

/-- Python's `all(ev(u) for u in items)` over a fallible per-item
evaluation: short-circuits on the first `False`. -/
def allMatchE (ev : Item → Except Err Bool) : List Item → Except Err Bool
  | [] => .ok true
  | u :: us => do
    let b ← ev u
    if b then allMatchE ev us else pure false

/-- Python's `all(not ev(u) for u in items)` over a fallible per-item
evaluation: short-circuits on the first match. -/
def noneMatchE (ev : Item → Except Err Bool) : List Item → Except Err Bool
  | [] => .ok true
  | u :: us => do
    let b ← ev u
    if b then pure false else noneMatchE ev us

/-- Python's `all(condition(item, ...) for condition in conditions)` in
`ConditionGroup.__call__`. -/
def groupAllE (ev : CondOrGroup → Except Err Bool) : List CondOrGroup → Except Err Bool
  | [] => .ok true
  | c :: cs => do
    let b ← ev c
    if b then groupAllE ev cs else pure false

/-- Python's `any(condition(item, ...) for condition in conditions)` in
`ConditionGroup.__call__`. -/
def groupAnyE (ev : CondOrGroup → Except Err Bool) : List CondOrGroup → Except Err Bool
  | [] => .ok false
  | c :: cs => do
    let b ← ev c
    if b then pure true else groupAnyE ev cs

/-- Translation of the static method `Condition._relcomp`, in open
recursion style: the invocation `condition(u, item_map,
named_conditions)` of the source is abstracted as `ev`; a `None`
condition raises `TypeError` at the first evaluated item (an empty item
list never calls it). -/
def relcompWith (ev : CondOrGroup → Item → Except Err Bool)
    (related_items : List Item) (condition : Option CondOrGroup)
    (logic : RelLogic) : Except Err Bool :=
  match logic with
  | .allMatch =>
    allMatchE
      (fun u =>
        match condition with
        | none => .error .typeError
        | some cnd => ev cnd u)
      related_items
  | .noneMatch =>
    noneMatchE
      (fun u =>
        match condition with
        | none => .error .typeError
        | some cnd => ev cnd u)
      related_items
  | .countMatch => .error .invalidCondition

/-- Translation of `Condition._evaluate_relationships`, in open recursion
style: nested evaluation of the resolved condition object is abstracted
as `ev` (in the source it is a direct call that also receives `item_map`
and `named_conditions`, which `ev` captures). -/
def evaluateRelationshipsWith (ev : CondOrGroup → Item → Except Err Bool)
    (relationships : List Relationship) (types : Option (List String))
    (logic : Option RelLogic) (count_unknowns : Bool)
    (count : Option (List NumComp)) (condition : Option CondOrGroup)
    (item_map : String → Option Item) : Except Err Bool :=
  let known := collectKnown item_map types relationships
  let known_items := known.1
  let num_unknowns := known.2
  match logic with
  | none =>
    let num_related_items :=
      known_items.length + (if count_unknowns then num_unknowns else 0)
    countAllE count (num_related_items : Int)
  | some lg =>
    if !count_unknowns && decide (num_unknowns > 0) &&
        (lg == .allMatch || lg == .noneMatch) then .ok false
    else if lg == .countMatch then do
      let m ← countMatchesE
        (fun u =>
          match condition with
          | none => .error .typeError
          | some cnd => ev cnd u)
        known_items
      countAllE count ((m + num_unknowns : Nat) : Int)
    else
      relcompWith ev known_items condition lg

/-- Translation of `Condition.__call__`, in open recursion style
(`ev` abstracts the evaluation of a nested condition object): dispatches
on the populated predicate attributes in source order and raises
`InvalidCondition` when no condition logic is populated. -/
def Condition.callWith (ev : CondOrGroup → Item → Except Err Bool)
    (c : Condition) (item : Item) (item_map : String → Option Item)
    (named : Names) : Except Err Bool :=
  match c.location_logic with
  | some .isUnder =>
    match c.location_path with
    | none => .error .typeError
    | some path =>
      let item_path := item.location ++ [item.title]
      if item_path.length < path.length then .ok false
      else .ok (path.enum.all (fun p => item_path.getD p.1 "" == p.2))
  | some .isNotUnder =>
    match c.location_path with
    | none => .error .typeError
    | some path =>
      let item_path := item.location ++ [item.title]
      if item_path.length < path.length then .ok true
      else .ok (!(path.enum.all (fun p => item_path.getD p.1 "" == p.2)))
  | some .everyNode =>
    match c.location_node with
    | none => .error .typeError
    | some sc => .ok ((item.location ++ [item.title]).all (fun node => strcomp node sc))
  | some .noNode =>
    match c.location_node with
    | none => .error .typeError
    | some sc => .ok ((item.location ++ [item.title]).all (fun node => !(strcomp node sc)))
  | none =>
    match c.field_name with
    | some nm =>
      match item.fields.lookup nm with
      | none => .ok (pyNot c.field_required)
      | some v =>
        match c.field_comp with
        | none => .ok true
        | some sc => .ok (strcomp v sc)
    | none =>
      if (match c.created_after with
          | some a => decide (item.object_created ≤ a)
          | none => false) then .ok false
      else if (match c.created_before with
          | some b => decide (item.object_created ≥ b)
          | none => false) then .ok false
      else if c.created_after.isSome || c.created_before.isSome then .ok true
      else if (match c.modified_after with
          | some a => decide (item.object_modified ≤ a)
          | none => false) then .ok false
      else if (match c.modified_before with
          | some b => decide (item.object_modified ≥ b)
          | none => false) then .ok false
      else if c.modified_after.isSome || c.modified_before.isSome then .ok true
      else
        match c.tags_include with
        | some t => .ok (item.tags.contains t)
        | none =>
          match c.tags_exclude with
          | some t => .ok (!(item.tags.contains t))
          | none =>
            if c.upstream_logic.isSome || c.upstream_count.isSome then
              match c.upstream_condition with
              | none =>
                evaluateRelationshipsWith ev item.upstream c.upstream_type
                  c.upstream_logic (c.upstream_count_unknowns.getD false)
                  c.upstream_count none item_map
              | some nm =>
                match named nm with
                | none => .error .invalidCondition
                | some cnd =>
                  evaluateRelationshipsWith ev item.upstream c.upstream_type
                    c.upstream_logic (c.upstream_count_unknowns.getD false)
                    c.upstream_count (some cnd) item_map
            else if c.downstream_logic.isSome || c.downstream_count.isSome then
              match c.downstream_condition with
              | none =>
                evaluateRelationshipsWith ev item.downstream c.downstream_type
                  c.downstream_logic (c.downstream_count_unknowns.getD false)
                  c.downstream_count none item_map
              | some nm =>
                match named nm with
                | none => .error .invalidCondition
                | some cnd =>
                  evaluateRelationshipsWith ev item.downstream c.downstream_type
                    c.downstream_logic (c.downstream_count_unknowns.getD false)
                    c.downstream_count (some cnd) item_map
            else .error .invalidCondition

/-- Translation of `ConditionGroup.__call__`, in open recursion style:
type filter first, a `None` member list is an immediate match, otherwise
all members are resolved and combined with the configured combinator
(`True` when no combinator is configured). -/
def ConditionGroup.callWith (ev : CondOrGroup → Item → Except Err Bool)
    (g : ConditionGroup) (item : Item) (item_map : String → Option Item)
    (named : Names) : Except Err Bool :=
  if (match g.type with
      | some ts => !(ts.contains item.object_type)
      | none => false) then .ok false
  else
    match g.conditions with
    | none => .ok true
    | some members =>
      match resolveMembers named members with
      | .error e => .error e
      | .ok conds =>
        match g.group_logic with
        | some .all => groupAllE (fun cnd => ev cnd item) conds
        | some .any => groupAnyE (fun cnd => ev cnd item) conds
        | none => .ok true

/-- Evaluation of a condition object (a `Condition` or `ConditionGroup`)
against an item: the recursive knot of the engine, indexed by fuel.  Each
nesting level (a `__call__` reached through a named or inline reference)
consumes one unit of fuel, and exhausted fuel models Python's
RecursionError on a cyclic named-condition reference. -/
def evalCondOrGroup : Nat → CondOrGroup → Item → (String → Option Item) →
    Names → Except Err Bool
  | 0, _, _, _, _ => .error .recursionLimit
  | fuel + 1, c, item, item_map, named =>
    match c with
    | .cond c =>
      Condition.callWith (fun cnd u => evalCondOrGroup fuel cnd u item_map named)
        c item item_map named
    | .group g =>
      ConditionGroup.callWith (fun cnd u => evalCondOrGroup fuel cnd u item_map named)
        g item item_map named

/-- `Condition.__call__` with nested conditions evaluated at the given
fuel. -/
def Condition.call (fuel : Nat) (c : Condition) (item : Item)
    (item_map : String → Option Item) (named : Names) : Except Err Bool :=
  Condition.callWith (fun cnd u => evalCondOrGroup fuel cnd u item_map named)
    c item item_map named

/-- `ConditionGroup.__call__` with nested conditions evaluated at the
given fuel. -/
def ConditionGroup.call (fuel : Nat) (g : ConditionGroup) (item : Item)
    (item_map : String → Option Item) (named : Names) : Except Err Bool :=
  ConditionGroup.callWith (fun cnd u => evalCondOrGroup fuel cnd u item_map named)
    g item item_map named

/-- `Condition._evaluate_relationships` with nested conditions evaluated
at the given fuel. -/
def evaluateRelationships (fuel : Nat) (relationships : List Relationship)
    (types : Option (List String)) (logic : Option RelLogic)
    (count_unknowns : Bool) (count : Option (List NumComp))
    (condition : Option CondOrGroup) (item_map : String → Option Item)
    (named : Names) : Except Err Bool :=
  evaluateRelationshipsWith (fun cnd u => evalCondOrGroup fuel cnd u item_map named)
    relationships types logic count_unknowns count condition item_map

/-- The item index built by `JamaFilter.__call__`:
`{item['project_id']: item for item in items}` — a left fold over the
items where a later item overwrites an earlier one with the same id. -/
def itemMapOf (items : List Item) : String → Option Item :=
  items.foldl
    (fun m item => fun k => if k = item.project_id then some item else m k)
    (fun _ => none)

/-- A constructed `JamaFilter`: the popped `main` condition plus the
named-condition registry. -/
structure JamaFilter where
  main_condition : CondOrGroup
  named_conditions : Names

/-- Translation of `JamaFilter.__init__`.  `conditions.pop('main')`
mutates the caller's mapping; the mutation is modelled by explicit state
passing: the returned `Names` is the post-construction state of the
argument mapping, and the filter retains exactly that mapping as its
registry.  A missing `main` key raises `KeyError`. -/
def JamaFilter.init (conditions : Names) : Except Err (JamaFilter × Names) :=
  match conditions "main" with
  | none => .error .keyError
  | some m =>
    let rest : Names := fun k => if k = "main" then none else conditions k
    .ok ({ main_condition := m, named_conditions := rest }, rest)

/-- Python's filtering list comprehension
`[item for item in items if predicate(item)]` over a predicate that can
raise: evaluated left to right, aborting on the first error. -/
def filterE (p : Item → Except Err Bool) : List Item → Except Err (List Item)
  | [] => .ok []
  | x :: xs => do
    let b ← p x
    let rest ← filterE p xs
    pure (if b then x :: rest else rest)

/-- Translation of `JamaFilter.__call__`: build the item index keyed by
`project_id`, then keep every item the main condition matches. -/
def JamaFilter.apply (fuel : Nat) (f : JamaFilter) (items : List Item) :
    Except Err (List Item) :=
  let item_map := itemMapOf items
  filterE
    (fun item => evalCondOrGroup fuel f.main_condition item item_map f.named_conditions)
    items

/-- Whether a fallible computation succeeded. -/
def isOkE {α : Type} (e : Except Err α) : Bool :=
  match e with
  | .ok _ => true
  | .error _ => false

/-- Whether a fallible boolean evaluation succeeded with `true`. -/
def isOkTrue (e : Except Err Bool) : Bool :=
  match e with
  | .ok b => b
  | .error _ => false

/-- A condition dictionary with two predicate kinds populated (`field`
and `tags`). -/
def condSpecFieldAndTags : CondSpec :=
  { field := some { name := "Status" }, tags := some { tags_include := some "x" } }

/-- A condition dictionary with no predicate kind populated. -/
def condSpecNoKinds : CondSpec := {}

/-- The condition `Condition.__init__` builds from
`condSpecFieldAndTags`. -/
def conditionFieldAndTags : Condition :=
  { field_name := some "Status", field_required := some true, tags_include := some "x" }

/-- C10: a `field` condition with `required: false` and no `value`
comparison is rejected with `InvalidCondition` at construction time, so a
presence-only test on an optional field cannot be built. -/
theorem condition_init_field_optional_requires_value :
    ∀ (nm : String),
      Condition.init { field := some { name := nm, value := none, required := false } } =
        .error .invalidCondition := by
  intro nm
  rfl

/-- C8: a condition group specifying neither a type filter nor a member
list crashes `ConditionGroup.__init__` with `TypeError` (from
`len(None)`) instead of the intended `InvalidCondition`; the intended
error is raised only when an (empty) member list is present. -/
theorem conditionGroup_init_no_type_no_members_type_error :
    ConditionGroup.init {} = .error .typeError ∧
    ConditionGroup.init { according_to_all := some [] } = .error .invalidCondition ∧
    ConditionGroup.init {} ≠ .error .invalidCondition := by
  refine ⟨rfl, rfl, fun h => ?_⟩
  rw [show ConditionGroup.init {} = Except.error Err.typeError from rfl] at h
  exact Err.noConfusion (Except.error.inj h)

/-- C5 counterexample: `Condition.__init__` raises no configuration error
for a condition with two predicate kinds populated, nor for one with zero
predicate kinds populated — both constructions succeed. -/
theorem condition_init_accepts_bad_kind_counts :
    isOkE (Condition.init condSpecFieldAndTags) = true ∧
    isOkE (Condition.init condSpecNoKinds) = true :=
  ⟨rfl, rfl⟩

/-- C5 amended: the `Condition` constructor does not enforce "exactly one
predicate kind".  A condition with both `field` and `tags` populated
constructs successfully and evaluates the field predicate, ignoring the
tags; a condition with zero predicate kinds constructs successfully and
raises `InvalidCondition` only when an item is evaluated. -/
theorem condition_kind_validation_deferred_to_call :
    Condition.init condSpecFieldAndTags = .ok conditionFieldAndTags ∧
    Condition.init condSpecNoKinds = .ok {} ∧
    (∀ (fuel : Nat) (item : Item) (item_map : String → Option Item) (named : Names),
      Condition.call fuel ({} : Condition) item item_map named =
        .error .invalidCondition) ∧
    (∀ (fuel : Nat) (item : Item) (item_map : String → Option Item) (named : Names),
      Condition.call fuel conditionFieldAndTags item item_map named =
        .ok (item.fields.lookup "Status").isSome) := by
  refine ⟨rfl, rfl, fun fuel item item_map named => rfl, fun fuel item item_map named => ?_⟩
  cases h : item.fields.lookup "Status" with
  | none => simp [Condition.call, Condition.callWith, conditionFieldAndTags, h, pyNot]
  | some v => simp [Condition.call, Condition.callWith, conditionFieldAndTags, h]

/-- C9: constructing a filter pops the reserved `main` key out of the
caller's conditions mapping and keeps that popped mapping as the
named-condition registry: afterwards the mapping no longer contains
`main`, is unchanged at every other key, and the registry is exactly that
mapping, while the popped value becomes the main condition. -/
theorem jamaFilter_init_pops_main :
    ∀ (conditions : Names) (m : CondOrGroup),
      conditions "main" = some m →
      ∃ (f : JamaFilter) (rest : Names),
        JamaFilter.init conditions = .ok (f, rest) ∧
        rest "main" = none ∧
        (∀ k, k ≠ "main" → rest k = conditions k) ∧
        f.named_conditions = rest ∧
        f.main_condition = m := by
  intro conds m h
  refine ⟨{ main_condition := m,
            named_conditions := fun k => if k = "main" then none else conds k },
          fun k => if k = "main" then none else conds k, ?_, ?_, ?_, rfl, rfl⟩
  · simp [JamaFilter.init, h]
  · simp
  · intro k hk
    simp [hk]

/-- A trivial registry value used by concrete instances. -/
def cgEmptyCond : CondOrGroup := .cond {}

/-- A conditions mapping carrying `main` (every name maps to the empty
condition). -/
def namesMainOnly : Names := fun _ => some cgEmptyCond

/-- Witness for C9 at a concrete conditions mapping. -/
theorem jamaFilter_init_pops_main_witness :
    ∃ (f : JamaFilter) (rest : Names),
      JamaFilter.init namesMainOnly = .ok (f, rest) ∧
      rest "main" = none ∧
      (∀ k, k ≠ "main" → rest k = namesMainOnly k) ∧
      f.named_conditions = rest ∧
      f.main_condition = cgEmptyCond :=
  jamaFilter_init_pops_main namesMainOnly cgEmptyCond rfl

/-- An item lookup map with no items. -/
def mapEmpty : String → Option Item := fun _ => none

/-- An empty named-condition registry. -/
def namesEmpty : Names := fun _ => none

/-- A base item used by concrete instances. -/
def itemBase : Item :=
  { project_id := "P1", object_type := "Requirement", title := "T1",
    location := ["Root"], fields := [("Status", "Open")], tags := ["x"],
    object_created := 0, object_modified := 0, upstream := [], downstream := [] }

/-- C6: a condition group's type filter rejects an item whose
`object_type` is absent from the allowed list before any member is
considered; with the type filter satisfied and no member list the item
matches, so a group with type `["Requirement"]` and no members matches
exactly the items whose `object_type` is `"Requirement"`. -/
theorem conditionGroup_type_filter_semantics :
    ∀ (fuel : Nat) (item : Item) (item_map : String → Option Item) (named : Names)
      (ts : List String) (gl : Option GroupTag) (ms : Option (List GroupMember)),
      (item.object_type ∉ ts →
        ConditionGroup.call fuel (.mk (some ts) gl ms) item item_map named =
          .ok false) ∧
      ConditionGroup.call fuel (.mk (some ts) gl none) item item_map named =
        .ok (decide (item.object_type ∈ ts)) ∧
      ConditionGroup.call fuel (.mk (some ["Requirement"]) none none) item item_map named =
        .ok (item.object_type == "Requirement") := by
  intro fuel item item_map named ts gl ms
  refine ⟨fun h => ?_, ?_, ?_⟩
  · simp [ConditionGroup.call, ConditionGroup.callWith, ConditionGroup.type,
      ConditionGroup.conditions, h]
  · by_cases h : item.object_type ∈ ts <;>
      simp [ConditionGroup.call, ConditionGroup.callWith, ConditionGroup.type,
        ConditionGroup.conditions, ConditionGroup.group_logic, h]
  · by_cases h : item.object_type = "Requirement" <;>
      simp [ConditionGroup.call, ConditionGroup.callWith, ConditionGroup.type,
        ConditionGroup.conditions, ConditionGroup.group_logic, h]

/-- An item whose type is not `Requirement`. -/
def itemOther : Item := { itemBase with object_type := "Folder" }

/-- Witness for C6: the type filter alone rejects a non-Requirement
item. -/
theorem conditionGroup_type_filter_semantics_witness :
    ConditionGroup.call 0 (.mk (some ["Requirement"]) none none) itemOther mapEmpty
      namesEmpty = .ok false :=
  (conditionGroup_type_filter_semantics 0 itemOther mapEmpty namesEmpty
    ["Requirement"] none none).1 (by decide)

/-- A condition dictionary with only `location: {is under: path}`. -/
def locSpecIsUnder (path : List String) : CondSpec :=
  { location := some { is_under := some path } }

/-- A condition dictionary with only `location: {is not under: path}`. -/
def locSpecIsNotUnder (path : List String) : CondSpec :=
  { location := some { is_not_under := some path } }

/-- The condition `Condition.__init__` builds from `locSpecIsUnder`. -/
def conditionIsUnder (path : List String) : Condition :=
  { location_logic := some .isUnder, location_path := some path }

/-- The condition `Condition.__init__` builds from `locSpecIsNotUnder`. -/
def conditionIsNotUnder (path : List String) : Condition :=
  { location_logic := some .isNotUnder, location_path := some path }

/-- C7: for every configured path, `is not under` evaluates to the exact
boolean complement of `is under` on every item (over the item's full path
`location + [title]`), and an item whose full path is shorter than the
configured path is never under it (`is under` false, `is not under`
true). -/
theorem location_is_not_under_complements_is_under :
    ∀ (path : List String),
      Condition.init (locSpecIsUnder path) = .ok (conditionIsUnder path) ∧
      Condition.init (locSpecIsNotUnder path) = .ok (conditionIsNotUnder path) ∧
      ∀ (fuel : Nat) (item : Item) (item_map : String → Option Item) (named : Names),
        (∃ b : Bool,
          Condition.call fuel (conditionIsUnder path) item item_map named = .ok b ∧
          Condition.call fuel (conditionIsNotUnder path) item item_map named =
            .ok (!b)) ∧
        ((item.location ++ [item.title]).length < path.length →
          Condition.call fuel (conditionIsUnder path) item item_map named =
            .ok false ∧
          Condition.call fuel (conditionIsNotUnder path) item item_map named =
            .ok true) := by
  intro path
  refine ⟨rfl, rfl, fun fuel item item_map named => ⟨?_, fun h => ?_⟩⟩
  · by_cases hlen : (item.location ++ [item.title]).length < path.length
    · refine ⟨false, ?_, ?_⟩
      · simp [Condition.call, Condition.callWith, conditionIsUnder, hlen]
        all_goals intro h'; exfalso; simp at hlen; omega
      · simp [Condition.call, Condition.callWith, conditionIsNotUnder, hlen]
        all_goals intro h'; exfalso; simp at hlen; omega
    · refine ⟨path.enum.all
          (fun p => (item.location ++ [item.title]).getD p.1 "" == p.2), ?_, ?_⟩
      · simp [Condition.call, Condition.callWith, conditionIsUnder, hlen]
        all_goals intro h'; exfalso; simp at hlen; omega
      · simp [Condition.call, Condition.callWith, conditionIsNotUnder, hlen]
        all_goals intro h'; exfalso; simp at hlen; omega
  · constructor
    · simp [Condition.call, Condition.callWith, conditionIsUnder, h]
      all_goals intro h'; exfalso; simp at h; omega
    · simp [Condition.call, Condition.callWith, conditionIsNotUnder, h]
      all_goals intro h'; exfalso; simp at h; omega

/-- An item whose full path (`[] + [title]`) has a single segment. -/
def itemShallow : Item := { itemBase with location := [], title := "T1" }

/-- Witness for C7: an item whose full path is shorter than the
configured path is not under it. -/
theorem location_is_not_under_complements_is_under_witness :
    Condition.call 0 (conditionIsUnder ["A", "B", "C"]) itemShallow mapEmpty
      namesEmpty = .ok false ∧
    Condition.call 0 (conditionIsNotUnder ["A", "B", "C"]) itemShallow mapEmpty
      namesEmpty = .ok true :=
  ((location_is_not_under_complements_is_under ["A", "B", "C"]).2.2 0 itemShallow
    mapEmpty namesEmpty).2 (by decide)

instance {ε α : Type} [DecidableEq ε] [DecidableEq α] : DecidableEq (Except ε α) :=
  fun x y =>
    match x, y with
    | .ok a, .ok b =>
      if h : a = b then .isTrue (by rw [h])
      else .isFalse (fun hh => h (Except.ok.inj hh))
    | .error a, .error b =>
      if h : a = b then .isTrue (by rw [h])
      else .isFalse (fun hh => h (Except.error.inj hh))
    | .ok _, .error _ => .isFalse (fun hh => Except.noConfusion hh)
    | .error _, .ok _ => .isFalse (fun hh => Except.noConfusion hh)

/-- Reduction of a successful bind in the `Except` monad. -/
theorem ok_bind {ε α β : Type} (a : α) (f : α → Except ε β) :
    (Except.ok a >>= f : Except ε β) = f a := rfl

/-- C1: with `all match` or `none match` quantification and "count
unknowns" disabled, one unresolved neighbor among the type-filtered
relationships makes the predicate false immediately, whatever the nested
condition, the count comparators or the known neighbors. -/
theorem evaluateRelationships_unknowns_veto :
    ∀ (fuel : Nat) (relationships : List Relationship) (types : Option (List String))
      (lg : RelLogic) (count : Option (List NumComp)) (condition : Option CondOrGroup)
      (item_map : String → Option Item) (named : Names),
      (lg = .allMatch ∨ lg = .noneMatch) →
      0 < (collectKnown item_map types relationships).2 →
      evaluateRelationships fuel relationships types (some lg) false count
        condition item_map named = .ok false := by
  intro fuel rels types lg count condition item_map named hlg hunk
  rcases hlg with h | h <;> subst h <;>
    simp [evaluateRelationships, evaluateRelationshipsWith, hunk]

/-- Witness for C1: one unresolved upstream id vetoes `all match`. -/
theorem evaluateRelationships_unknowns_veto_witness :
    evaluateRelationships 0 [⟨"t", "Z"⟩] none (some .allMatch) false none
      (some cgEmptyCond) mapEmpty namesEmpty = .ok false :=
  evaluateRelationships_unknowns_veto 0 [⟨"t", "Z"⟩] none .allMatch none
    (some cgEmptyCond) mapEmpty namesEmpty (Or.inl rfl) (by decide)

/-- C2: in `count match` mode the result is the conjunction of the count
comparators applied to the number of known neighbors matching the nested
condition plus the number of unresolved ids, the latter added regardless
of the "count unknowns" flag; the match count is the filter count of the
known neighbors; and a `count match` without a `count` comparator set is
rejected at construction time. -/
theorem evaluateRelationships_count_match_semantics :
    (∀ (fuel : Nat) (relationships : List Relationship) (types : Option (List String))
      (cu : Bool) (cs : List NumComp) (cnd : CondOrGroup)
      (item_map : String → Option Item) (named : Names) (m : Nat),
      countMatchesE (fun u => evalCondOrGroup fuel cnd u item_map named)
          (collectKnown item_map types relationships).1 = .ok m →
      evaluateRelationships fuel relationships types (some .countMatch) cu (some cs)
        (some cnd) item_map named =
        .ok (cs.all (fun nc =>
          numcomp ((m + (collectKnown item_map types relationships).2 : Nat) : Int) nc))) ∧
    (∀ (ev : Item → Except Err Bool) (known : List Item) (p : Item → Bool),
      (∀ u ∈ known, ev u = .ok (p u)) →
      countMatchesE ev known = .ok (known.filter p).length) ∧
    (∀ (nm : String),
      Condition.init { upstream_items := some { count_match := some nm } } =
        .error .invalidCondition) := by
  refine ⟨?_, ?_, fun nm => rfl⟩
  · intro fuel rels types cu cs cnd item_map named m hm
    simp [evaluateRelationships, evaluateRelationshipsWith, countAllE, hm, ok_bind]
  · intro ev known p h
    induction known with
    | nil => rfl
    | cons u us ih =>
      have hu : ev u = .ok (p u) := h u (by simp)
      have hus : ∀ x ∈ us, ev x = .ok (p x) := fun x hx => h x (by simp [hx])
      simp [countMatchesE, hu, ih hus, List.filter_cons, ok_bind]
      cases hp : p u <;> simp [hp, ok_bind]

/-- An item resolvable as a matching neighbor. -/
def itemA : Item := { itemBase with project_id := "A" }

/-- A second item resolvable as a matching neighbor. -/
def itemB : Item := { itemBase with project_id := "B" }

/-- Two resolvable relationships plus one unresolved id. -/
def relsTwoKnownOneUnknown : List Relationship := [⟨"t", "A"⟩, ⟨"t", "B"⟩, ⟨"t", "Z"⟩]

/-- An index resolving `A` and `B` only. -/
def mapAB : String → Option Item := itemMapOf [itemA, itemB]

/-- A field condition matching items whose `Status` is `Open`. -/
def condStatusOpen : Condition :=
  { field_name := some "Status", field_comp := some (.is "Open"),
    field_required := some true }

/-- Witness for C2: two matching known neighbors plus one unknown satisfy
`count {is: 3}` (2 matches + 1 unknown = 3). -/
theorem evaluateRelationships_count_match_semantics_witness :
    evaluateRelationships 1 relsTwoKnownOneUnknown none (some .countMatch) false
      (some [NumComp.is 3]) (some (.cond condStatusOpen)) mapAB namesEmpty =
      .ok true ∧
    countMatchesE (fun u => evalCondOrGroup 1 (.cond condStatusOpen) u mapAB namesEmpty)
      (collectKnown mapAB none relsTwoKnownOneUnknown).1 = .ok 2 := by
  have h1 := evaluateRelationships_count_match_semantics.1 1 relsTwoKnownOneUnknown
    none false [NumComp.is 3] (.cond condStatusOpen) mapAB namesEmpty 2 (by rfl)
  have h2 := evaluateRelationships_count_match_semantics.2.1
    (fun u => evalCondOrGroup 1 (.cond condStatusOpen) u mapAB namesEmpty)
    (collectKnown mapAB none relsTwoKnownOneUnknown).1
    (fun _ => true)
    (by
      intro u hu
      rw [show (collectKnown mapAB none relsTwoKnownOneUnknown).1 = [itemA, itemB]
        from rfl] at hu
      simp at hu
      rcases hu with rfl | rfl <;> rfl)
  exact ⟨h1.trans rfl, h2.trans rfl⟩

/-- Characterisation of the comparator list built from
`count: {greater than: 1, less than: 5}`: the conjunction accepts exactly
the counts 2, 3 and 4. -/
theorem countGtLt_all_eq (n : Nat) :
    [NumComp.greaterThan 1, NumComp.lessThan 5].all (fun nc => numcomp (n : Int) nc) =
      decide (n = 2 ∨ n = 3 ∨ n = 4) := by
  simp only [List.all_cons, List.all_nil, Bool.and_true, numcomp]
  rw [← Bool.decide_and, decide_eq_decide]
  omega

/-- A condition dictionary with only
`downstream items: {count: {greater than: 1, less than: 5}}`. -/
def downCountSpec (cu : Bool) : CondSpec :=
  { downstream_items := some
      { count := some { greater_than := some 1, less_than := some 5 },
        count_unknowns := cu } }

/-- The condition `Condition.__init__` builds from `downCountSpec`. -/
def downCountCondition (cu : Bool) : Condition :=
  { downstream_count := some [.greaterThan 1, .lessThan 5],
    downstream_count_unknowns := some cu }

/-- C3: in pure counting mode the result is the conjunction of every
configured comparator applied to the number of type-filtered resolved
neighbors, plus the unresolved ids only when "count unknowns" is enabled;
with `greater than: 1` and `less than: 5` on downstream relationships,
exactly the counts 2, 3 and 4 are accepted (1 and 5 are rejected). -/
theorem evaluateRelationships_pure_count_semantics :
    (∀ (fuel : Nat) (relationships : List Relationship) (types : Option (List String))
      (cu : Bool) (cs : List NumComp) (condition : Option CondOrGroup)
      (item_map : String → Option Item) (named : Names),
      evaluateRelationships fuel relationships types none cu (some cs) condition
        item_map named =
        .ok (cs.all (fun nc =>
          numcomp (((collectKnown item_map types relationships).1.length +
            (if cu then (collectKnown item_map types relationships).2 else 0) : Nat) :
            Int) nc))) ∧
    (∀ (cu : Bool), Condition.init (downCountSpec cu) = .ok (downCountCondition cu)) ∧
    (∀ (fuel : Nat) (cu : Bool) (item : Item) (item_map : String → Option Item)
      (named : Names),
      Condition.call fuel (downCountCondition cu) item item_map named =
        .ok (decide
          ((collectKnown item_map none item.downstream).1.length +
              (if cu then (collectKnown item_map none item.downstream).2 else 0) = 2 ∨
            (collectKnown item_map none item.downstream).1.length +
              (if cu then (collectKnown item_map none item.downstream).2 else 0) = 3 ∨
            (collectKnown item_map none item.downstream).1.length +
              (if cu then (collectKnown item_map none item.downstream).2 else 0) = 4))) := by
  refine ⟨?_, fun cu => rfl, ?_⟩
  · intro fuel rels types cu cs condition item_map named
    simp [evaluateRelationships, evaluateRelationshipsWith, countAllE]
  · intro fuel cu item item_map named
    rw [show Condition.call fuel (downCountCondition cu) item item_map named =
      countAllE (some [.greaterThan 1, .lessThan 5])
        (((collectKnown item_map none item.downstream).1.length +
          (if cu then (collectKnown item_map none item.downstream).2 else 0) : Nat) : Int)
      from rfl]
    rw [countAllE, countGtLt_all_eq]

/-- The filtering comprehension agrees with `List.filter` over the
per-item truth values whenever no evaluation raises. -/
theorem filterE_eq_filter (p : Item → Except Err Bool) :
    ∀ (items : List Item),
      (∀ i ∈ items, isOkE (p i) = true) →
      filterE p items = .ok (items.filter (fun i => isOkTrue (p i))) := by
  intro items h
  induction items with
  | nil => rfl
  | cons x xs ih =>
    have hx := h x (by simp)
    have hxs : ∀ i ∈ xs, isOkE (p i) = true := fun i hi => h i (by simp [hi])
    cases hpx : p x with
    | error e => rw [hpx] at hx; simp [isOkE] at hx
    | ok b =>
      simp [filterE, hpx, ih hxs, ok_bind, List.filter_cons, isOkTrue]

/-- The item index resolves every id to the last item in input order that
carries it. -/
theorem itemMapOf_last_wins :
    ∀ (items : List Item) (k : String),
      itemMapOf items k = (items.filter (fun i => i.project_id == k)).getLast? := by
  intro items
  induction items using List.reverseRecOn with
  | nil => intro k; rfl
  | append_singleton xs x ih =>
    intro k
    have step : itemMapOf (xs ++ [x]) k =
        if k = x.project_id then some x else itemMapOf xs k := by
      simp [itemMapOf, List.foldl_append]
    rw [step, List.filter_append]
    by_cases h : k = x.project_id
    · subst h
      simp [List.filter_cons]
    · have h2 : (x.project_id == k) = false := by
        simp only [beq_eq_false_iff_ne, ne_eq]
        exact fun hh => h hh.symm
      simp [List.filter_cons, h, h2, ih]

/-- C4: whenever no evaluation raises, `JamaFilter.__call__` returns
exactly the items the main condition accepts — an order-preserving
subsequence of the input with no other transformation — evaluated
against the index keyed by `project_id` in which the last item wins on
duplicate ids. -/
theorem jamaFilter_apply_subset_semantics :
    ∀ (fuel : Nat) (f : JamaFilter) (items : List Item),
      (∀ i ∈ items,
        isOkE (evalCondOrGroup fuel f.main_condition i (itemMapOf items)
          f.named_conditions) = true) →
      JamaFilter.apply fuel f items =
        .ok (items.filter (fun i =>
          isOkTrue (evalCondOrGroup fuel f.main_condition i (itemMapOf items)
            f.named_conditions))) ∧
      (items.filter (fun i =>
        isOkTrue (evalCondOrGroup fuel f.main_condition i (itemMapOf items)
          f.named_conditions))).Sublist items ∧
      (∀ k, itemMapOf items k =
        (items.filter (fun i => i.project_id == k)).getLast?) := by
  intro fuel f items h
  exact ⟨filterE_eq_filter _ items h, List.filter_sublist _, itemMapOf_last_wins items⟩

/-- An item whose `Status` field is not `Open`. -/
def itemC : Item := { itemBase with project_id := "C", fields := [("Status", "Closed")] }

/-- A filter whose main condition requires `Status` to be `Open`. -/
def filterStatusOpen : JamaFilter :=
  { main_condition := .cond condStatusOpen, named_conditions := namesEmpty }

/-- Witness for C4 at a concrete filter and item list. -/
theorem jamaFilter_apply_subset_semantics_witness :
    (∀ i ∈ [itemA, itemC],
      isOkE (evalCondOrGroup 1 filterStatusOpen.main_condition i
        (itemMapOf [itemA, itemC]) filterStatusOpen.named_conditions) = true) ∧
    JamaFilter.apply 1 filterStatusOpen [itemA, itemC] = .ok [itemA] := by
  have h : ∀ i ∈ [itemA, itemC],
      isOkE (evalCondOrGroup 1 filterStatusOpen.main_condition i
        (itemMapOf [itemA, itemC]) filterStatusOpen.named_conditions) = true := by
    decide
  refine ⟨h, ?_⟩
  exact ((jamaFilter_apply_subset_semantics 1 filterStatusOpen [itemA, itemC] h).1).trans
    (by rfl)
